import Mathlib

/-!
Verification of the b2g build driver (scripts/b2g_build.py) against its
specification.  The Python actions are shallowly embedded as pure Lean
functions over explicit state; external collaborators (the tar/build/sign
subprocesses, the rsync transfer, the vcs checkout, glob expansion) are
modelled as oracle inputs (exit codes, success flags, match lists) passed
to the embedded action.  File contents are modelled as lists of
characters; Python `int(...)` parsing and `str(...)` printing of integers
are embedded faithfully below.
-/

/-! ## Python integer printing and parsing

`pyInt` embeds Python's `int(s)` applied to a string: surrounding
whitespace is ignored, an optional sign is followed by one or more
decimal digits, and anything else raises `ValueError` (modelled as
`none`).  `intToDecimal` embeds `str(i)` for an integer `i`. -/

def digitOfNat : Nat → Char
  | 0 => '0'
  | 1 => '1'
  | 2 => '2'
  | 3 => '3'
  | 4 => '4'
  | 5 => '5'
  | 6 => '6'
  | 7 => '7'
  | 8 => '8'
  | _ => '9'

def digitVal (c : Char) : Nat := c.toNat - 48

def digitsToNat (cs : List Char) : Nat :=
  cs.foldl (fun a c => a * 10 + digitVal c) 0

def natToDecimal (n : Nat) : List Char :=
  if _h : n < 10 then [digitOfNat n]
  else natToDecimal (n / 10) ++ [digitOfNat (n % 10)]
decreasing_by exact Nat.div_lt_self (by omega) (by omega)

def intToDecimal (i : Int) : List Char :=
  if i < 0 then '-' :: natToDecimal i.natAbs else natToDecimal i.toNat

def parseDigits : List Char → Option Nat
  | [] => none
  | c :: rest =>
    if (c :: rest).all Char.isDigit then some (digitsToNat (c :: rest)) else none

def stripWS (cs : List Char) : List Char :=
  ((cs.dropWhile Char.isWhitespace).reverse.dropWhile Char.isWhitespace).reverse

def pyIntCore : List Char → Option Int
  | [] => none
  | c :: rest =>
    if c = '-' then (parseDigits rest).map (fun n => -(n : Int))
    else if c = '+' then (parseDigits rest).map (fun n => (n : Int))
    else (parseDigits (c :: rest)).map (fun n => (n : Int))

def pyInt (cs : List Char) : Option Int :=
  pyIntCore (stripWS cs)

theorem digitVal_digitOfNat {d : Nat} (h : d < 10) : digitVal (digitOfNat d) = d := by
  interval_cases d <;> decide

theorem digitOfNat_spec {d : Nat} (h : d < 10) :
    (digitOfNat d).isDigit = true ∧ (digitOfNat d).isWhitespace = false ∧
    digitOfNat d ≠ '-' ∧ digitOfNat d ≠ '+' := by
  interval_cases d <;> exact ⟨by decide, by decide, by decide, by decide⟩

theorem mem_natToDecimal {n : Nat} {c : Char} (h : c ∈ natToDecimal n) :
    ∃ d, d < 10 ∧ c = digitOfNat d := by
  induction n using Nat.strong_induction_on with
  | _ n ih =>
    rw [natToDecimal] at h
    split at h
    · next hlt =>
      simp only [List.mem_singleton] at h
      exact ⟨n, hlt, h⟩
    · next hge =>
      rcases List.mem_append.mp h with h' | h'
      · exact ih (n / 10) (Nat.div_lt_self (by omega) (by omega)) h'
      · simp only [List.mem_singleton] at h'
        exact ⟨n % 10, Nat.mod_lt _ (by omega), h'⟩

theorem natToDecimal_ne_nil (n : Nat) : natToDecimal n ≠ [] := by
  rw [natToDecimal]
  split <;> simp

theorem digitsToNat_natToDecimal (n : Nat) : digitsToNat (natToDecimal n) = n := by
  induction n using Nat.strong_induction_on with
  | _ n ih =>
    rw [natToDecimal]
    split
    · next hlt =>
      simp [digitsToNat, digitVal_digitOfNat hlt]
    · next hge =>
      have hrec := ih (n / 10) (Nat.div_lt_self (by omega) (by omega))
      simp only [digitsToNat, List.foldl_append, List.foldl_cons, List.foldl_nil]
      have : List.foldl (fun a c => a * 10 + digitVal c) 0 (natToDecimal (n / 10)) = n / 10 := hrec
      rw [this, digitVal_digitOfNat (Nat.mod_lt _ (by omega))]
      omega

theorem parseDigits_natToDecimal (n : Nat) : parseDigits (natToDecimal n) = some n := by
  have hne := natToDecimal_ne_nil n
  rcases hcs : natToDecimal n with _ | ⟨c, rest⟩
  · exact absurd hcs hne
  · have hall : (c :: rest).all Char.isDigit = true := by
      rw [List.all_eq_true]
      intro x hx
      obtain ⟨d, hd, rfl⟩ := mem_natToDecimal (hcs ▸ hx)
      exact (digitOfNat_spec hd).1
    have := digitsToNat_natToDecimal n
    rw [hcs] at this
    simp [parseDigits, hall, this]

theorem dropWhile_eq_self_of_none (p : Char → Bool) (cs : List Char)
    (h : ∀ c ∈ cs, p c = false) : cs.dropWhile p = cs := by
  cases cs with
  | nil => rfl
  | cons c rest =>
    have := h c (by simp)
    simp [List.dropWhile, this]

theorem stripWS_eq_self (cs : List Char)
    (h : ∀ c ∈ cs, c.isWhitespace = false) : stripWS cs = cs := by
  unfold stripWS
  rw [dropWhile_eq_self_of_none _ _ h,
      dropWhile_eq_self_of_none _ _ (fun c hc => h c (List.mem_reverse.mp hc)),
      List.reverse_reverse]

theorem pyInt_intToDecimal (i : Int) : pyInt (intToDecimal i) = some i := by
  by_cases hneg : i < 0
  · have hchars : ∀ c ∈ intToDecimal i, c.isWhitespace = false := by
      intro c hc
      simp only [intToDecimal, if_pos hneg, List.mem_cons] at hc
      rcases hc with rfl | hc
      · decide
      · obtain ⟨d, hd, rfl⟩ := mem_natToDecimal hc
        exact (digitOfNat_spec hd).2.1
    have hform : intToDecimal i = '-' :: natToDecimal i.natAbs := by
      simp [intToDecimal, if_pos hneg]
    rw [pyInt, stripWS_eq_self _ hchars, hform]
    simp [pyIntCore, parseDigits_natToDecimal,
      Int.ofNat_natAbs_of_nonpos (le_of_lt hneg)]
  · have hform : intToDecimal i = natToDecimal i.toNat := by
      simp [intToDecimal, if_neg hneg]
    have hchars : ∀ c ∈ intToDecimal i, c.isWhitespace = false := by
      intro c hc
      rw [hform] at hc
      obtain ⟨d, hd, rfl⟩ := mem_natToDecimal hc
      exact (digitOfNat_spec hd).2.1
    rw [pyInt, stripWS_eq_self _ hchars, hform]
    rcases hcs : natToDecimal i.toNat with _ | ⟨c, rest⟩
    · exact absurd hcs (natToDecimal_ne_nil _)
    · obtain ⟨d, hd, rfl⟩ := mem_natToDecimal (hcs ▸ List.mem_cons_self c rest)
      simp only [pyIntCore, if_neg (digitOfNat_spec hd).2.2.1,
        if_neg (digitOfNat_spec hd).2.2.2, ← hcs, parseDigits_natToDecimal]
      simp [Int.toNat_of_nonneg (not_lt.mp hneg)]

/-! ## Snapshot cache: `unpack_gonk` (scripts/b2g_build.py, lines 252-273)

The action computes `mtime = int(getmtime('gonk.tar.xz'))`, then inside a
`try` block reads the fingerprint file `.gonk_mtime`, parses it with
`int(...)` and, when it equals `mtime`, logs and returns (skip); any
failure while reading or parsing is swallowed by the bare `except: pass`.
Otherwise it runs `tar xf gonk.tar.xz`, calls `fatal(exit_code=2)` on a
non-zero exit status, and finally writes `str(mtime)` back to the
fingerprint file.  The state carries the snapshot's modification time,
the fingerprint file contents (`none` = absent/unreadable), and a
side-effect counter of tar extractions; the tar exit status is an oracle
input.  (The `cat sources.xml` invocation has its result ignored by the
source and is not part of the state.) -/

structure GonkState where
  gonkMtime : Int
  fingerprint : Option (List Char)
  extractions : Nat
deriving DecidableEq

inductive UnpackOutcome
  | skipped
  | unpacked
  | fatalUnpack
deriving DecidableEq

def skip_check (mtime : Int) (fingerprint : Option (List Char)) : Bool :=
  match fingerprint with
  | none => false
  | some s =>
    match pyInt s with
    | none => false
    | some prev => decide (mtime = prev)

def unpack_gonk (st : GonkState) (tarExit : Int) : GonkState × UnpackOutcome :=
  if skip_check st.gonkMtime st.fingerprint then (st, UnpackOutcome.skipped)
  else if tarExit ≠ 0 then (st, UnpackOutcome.fatalUnpack)
  else ({ st with fingerprint := some (intToDecimal st.gonkMtime),
                  extractions := st.extractions + 1 }, UnpackOutcome.unpacked)

theorem skip_check_eq_true_iff (m : Int) (fp : Option (List Char)) :
    skip_check m fp = true ↔ ∃ s, fp = some s ∧ pyInt s = some m := by
  cases fp with
  | none => simp [skip_check]
  | some s =>
    cases hp : pyInt s with
    | none => simp [skip_check, hp]
    | some prev =>
      simp only [skip_check, hp, decide_eq_true_eq, Option.some.injEq]
      constructor
      · rintro rfl
        exact ⟨s, rfl, hp⟩
      · rintro ⟨s', hs', hps'⟩
        cases hs'
        rw [hp] at hps'
        cases hps'
        rfl

/-- C1: the snapshot-cache decision in `unpack_gonk` skips the unpack if
and only if the persisted fingerprint parses (as a Python `int`) to
exactly the snapshot's current modification time; an absent or unparsable
fingerprint file means the unpack proceeds, and a failed fingerprint read
is never fatal — the only fatal outcome comes from a failing tar. -/
theorem unpack_gonk_skip_decision (st : GonkState) (tarExit : Int) :
    ((unpack_gonk st tarExit).2 = UnpackOutcome.skipped ↔
      ∃ s, st.fingerprint = some s ∧ pyInt s = some st.gonkMtime) ∧
    ((unpack_gonk st tarExit).2 = UnpackOutcome.fatalUnpack → tarExit ≠ 0) ∧
    (st.fingerprint = none → tarExit = 0 →
      (unpack_gonk st tarExit).2 = UnpackOutcome.unpacked) ∧
    (∀ s, st.fingerprint = some s → pyInt s = none → tarExit = 0 →
      (unpack_gonk st tarExit).2 = UnpackOutcome.unpacked) := by
  by_cases h : skip_check st.gonkMtime st.fingerprint = true
  · refine ⟨?_, ?_, ?_, ?_⟩
    · simp only [unpack_gonk, h, if_true]
      simpa using (skip_check_eq_true_iff st.gonkMtime st.fingerprint).mp h
    · intro habs
      simp [unpack_gonk, h] at habs
    · intro hnone _
      rw [hnone] at h
      simp [skip_check] at h
    · intro s hs hps _
      rw [hs] at h
      simp [skip_check, hps] at h
  · have h' : skip_check st.gonkMtime st.fingerprint = false :=
      Bool.eq_false_iff.mpr h
    refine ⟨?_, ?_, ?_, ?_⟩
    · constructor
      · intro habs
        by_cases he : tarExit = 0 <;> simp [unpack_gonk, h', he] at habs
      · intro hex
        exact absurd ((skip_check_eq_true_iff st.gonkMtime st.fingerprint).mpr hex) h
    · intro habs
      by_cases he : tarExit = 0
      · exfalso
        simp [unpack_gonk, h', he] at habs
      · exact he
    · intro _ he
      simp [unpack_gonk, h', he]
    · intro s _ _ he
      simp [unpack_gonk, h', he]

theorem unpack_gonk_skip_decision_witness :
    (unpack_gonk ⟨100, some ('1' :: '0' :: '0' :: []), 3⟩ 5).2 = UnpackOutcome.skipped ∧
    (unpack_gonk ⟨100, none, 0⟩ 0).2 = UnpackOutcome.unpacked ∧
    (unpack_gonk ⟨100, some ('x' :: []), 0⟩ 0).2 = UnpackOutcome.unpacked ∧
    (7 : Int) ≠ 0 :=
  ⟨(unpack_gonk_skip_decision ⟨100, some ('1' :: '0' :: '0' :: []), 3⟩ 5).1.mpr
      ⟨'1' :: '0' :: '0' :: [], rfl, by decide⟩,
   (unpack_gonk_skip_decision ⟨100, none, 0⟩ 0).2.2.1 rfl rfl,
   (unpack_gonk_skip_decision ⟨100, some ('x' :: []), 0⟩ 0).2.2.2
      ('x' :: []) rfl (by decide) rfl,
   (unpack_gonk_skip_decision ⟨100, none, 0⟩ 7).2.1 (by decide)⟩

/-- C4: the unpack stage is idempotent.  After any run with a successful
tar (exit status 0) — including the very first, where the action really
unpacks — the fingerprint holds the printed snapshot mtime whenever the
run unpacked, and a second run with the snapshot unchanged skips and
leaves the whole state (in particular the extraction counter) untouched. -/
theorem unpack_gonk_idempotent (st : GonkState) (e2 : Int) :
    ((unpack_gonk st 0).2 = UnpackOutcome.unpacked →
      (unpack_gonk st 0).1.fingerprint = some (intToDecimal st.gonkMtime)) ∧
    unpack_gonk (unpack_gonk st 0).1 e2 = ((unpack_gonk st 0).1, UnpackOutcome.skipped) := by
  by_cases h : skip_check st.gonkMtime st.fingerprint = true
  · constructor
    · intro habs
      simp [unpack_gonk, h] at habs
    · simp [unpack_gonk, h]
  · have h' : skip_check st.gonkMtime st.fingerprint = false :=
      Bool.eq_false_iff.mpr h
    have hskip2 : skip_check st.gonkMtime (some (intToDecimal st.gonkMtime)) = true := by
      simp [skip_check, pyInt_intToDecimal]
    constructor
    · intro _
      simp [unpack_gonk, h']
    · simp [unpack_gonk, h', hskip2]

theorem unpack_gonk_idempotent_witness :
    ((unpack_gonk ⟨100, none, 0⟩ 0).1.fingerprint = some (intToDecimal 100)) ∧
    unpack_gonk (unpack_gonk ⟨100, none, 0⟩ 0).1 9 =
      ((unpack_gonk ⟨100, none, 0⟩ 0).1, UnpackOutcome.skipped) :=
  ⟨(unpack_gonk_idempotent ⟨100, none, 0⟩ 9).1 (by decide),
   (unpack_gonk_idempotent ⟨100, none, 0⟩ 9).2⟩

/-! ## Run state and per-action outcomes

`return_code` embeds `BaseScript.self.return_code` (starts at 0; a
recoverable error sets it to 2).  `Outcome.fatalAbort c` embeds a call to
`self.fatal(..., exit_code=c)`, which raises and stops the run.  Each
embedded update-workflow action also reports how many sandboxed-executor
commands and how many transfer (rsync) calls it performed, mirroring
call-count assertions on mocked collaborators. -/

structure RunState where
  return_code : Nat
deriving DecidableEq

inductive PyExn
  | keyError
  | indexError
  | typeError
deriving DecidableEq

inductive Outcome
  | completed
  | fatalAbort (exitCode : Int)
  | uncaught (e : PyExn)
deriving DecidableEq

structure ActRes where
  st : RunState
  outcome : Outcome
  executorCalls : Nat
  transferCalls : Nat
deriving DecidableEq

/-! ## Update packaging workflow (scripts/b2g_build.py, lines 384-455 and 561-640)

`make_updates` skips unless nightly, else runs `./build.sh
gecko-update-full` (exit status is the oracle `build_retval`), is fatal
with exit code 2 on failure, then calls `sign_updates`.  `sign_updates`
skips when `MOZ_SIGNING_SERVERS` is unset, else checks out the tools repo
(a vcs collaborator, not an executor command) and runs `signtool.py`,
fatal with exit code 2 on failure.  `make_update_xml` skips unless
nightly and an `update` config is present, else calls the
`create_update_xml` collaborator and is fatal (default exit code -1) when
it reports failure; the three following `copy_to_upload_dir` calls are
local copies, not transfers.  `upload_updates` skips unless nightly with
an `update` config, else rsyncs the dated files (excluding update.xml);
`rsync_upload_directory` returns `none` on success, and on a non-`none`
result the stage logs an error and sets `return_code = 2` without
aborting; when `autopublish` is configured it then rsyncs everything
including update.xml, with the same non-fatal failure handling. -/

structure UpdateCfg where
  autopublish : Bool
deriving DecidableEq

structure MakeUpdatesEnv where
  is_nightly : Bool
  build_retval : Int
  signing_servers : Option (List (List Char))
  sign_retval : Int
deriving DecidableEq

def sign_updates (env : MakeUpdatesEnv) (st : RunState) : ActRes :=
  match env.signing_servers with
  | none => ⟨st, Outcome.completed, 0, 0⟩
  | some _ =>
    if env.sign_retval ≠ 0 then ⟨st, Outcome.fatalAbort 2, 1, 0⟩
    else ⟨st, Outcome.completed, 1, 0⟩

def make_updates (env : MakeUpdatesEnv) (st : RunState) : ActRes :=
  if env.is_nightly = false then ⟨st, Outcome.completed, 0, 0⟩
  else if env.build_retval ≠ 0 then ⟨st, Outcome.fatalAbort 2, 1, 0⟩
  else
    let s := sign_updates env st
    ⟨s.st, s.outcome, s.executorCalls + 1, s.transferCalls⟩

structure MakeUpdateXmlEnv where
  is_nightly : Bool
  update : Option UpdateCfg
  create_xml_ok : Bool
deriving DecidableEq

def make_update_xml (env : MakeUpdateXmlEnv) (st : RunState) : ActRes :=
  if env.is_nightly = false then ⟨st, Outcome.completed, 0, 0⟩
  else
    match env.update with
    | none => ⟨st, Outcome.completed, 0, 0⟩
    | some _ =>
      if env.create_xml_ok = false then ⟨st, Outcome.fatalAbort (-1), 0, 0⟩
      else ⟨st, Outcome.completed, 0, 0⟩

structure UploadUpdatesEnv where
  is_nightly : Bool
  update : Option UpdateCfg
  rsync1 : Option Int
  rsync2 : Option Int
deriving DecidableEq

def upload_updates (env : UploadUpdatesEnv) (st : RunState) : ActRes :=
  if env.is_nightly = false then ⟨st, Outcome.completed, 0, 0⟩
  else
    match env.update with
    | none => ⟨st, Outcome.completed, 0, 0⟩
    | some u =>
      let st1 := match env.rsync1 with
        | some _ => { st with return_code := 2 }
        | none => st
      if u.autopublish then
        let st2 := match env.rsync2 with
          | some _ => { st1 with return_code := 2 }
          | none => st1
        ⟨st2, Outcome.completed, 0, 2⟩
      else ⟨st1, Outcome.completed, 0, 1⟩

/-- C6: for every run configuration with the nightly flag false, invoking
any of the Update Packaging Workflow stages (make_updates,
make_update_xml, upload_updates) is a pure logged no-op: zero executor
invocations, zero transfer invocations, no error, state unchanged. -/
theorem update_workflow_nonnightly_noop (e1 : MakeUpdatesEnv)
    (e2 : MakeUpdateXmlEnv) (e3 : UploadUpdatesEnv) (st : RunState)
    (h1 : e1.is_nightly = false) (h2 : e2.is_nightly = false)
    (h3 : e3.is_nightly = false) :
    make_updates e1 st = ⟨st, Outcome.completed, 0, 0⟩ ∧
    make_update_xml e2 st = ⟨st, Outcome.completed, 0, 0⟩ ∧
    upload_updates e3 st = ⟨st, Outcome.completed, 0, 0⟩ := by
  refine ⟨?_, ?_, ?_⟩ <;>
    simp [make_updates, make_update_xml, upload_updates, h1, h2, h3]

theorem update_workflow_nonnightly_noop_witness :
    make_updates ⟨false, 1, none, 0⟩ ⟨0⟩ = ⟨⟨0⟩, Outcome.completed, 0, 0⟩ ∧
    make_update_xml ⟨false, some ⟨true⟩, false⟩ ⟨0⟩ = ⟨⟨0⟩, Outcome.completed, 0, 0⟩ ∧
    upload_updates ⟨false, some ⟨true⟩, some 1, some 1⟩ ⟨0⟩ = ⟨⟨0⟩, Outcome.completed, 0, 0⟩ :=
  update_workflow_nonnightly_noop ⟨false, 1, none, 0⟩ ⟨false, some ⟨true⟩, false⟩
    ⟨false, some ⟨true⟩, some 1, some 1⟩ ⟨0⟩ rfl rfl rfl

/-- C2 counterexample: a non-success transfer result inside the
upload_updates stage of the Update Packaging Workflow does not abort the
run.  With nightly mode on, an update config with autopublish, and the
first rsync failing (exit 12), the stage completes without a fatal abort,
merely records return code 2, and still performs the second (autopublish)
transfer — later work in the workflow does run after the failure. -/
theorem upload_updates_transfer_failure_recoverable :
    upload_updates ⟨true, some ⟨true⟩, some 12, none⟩ ⟨0⟩ =
      ⟨⟨2⟩, Outcome.completed, 0, 2⟩ ∧
    (upload_updates ⟨true, some ⟨true⟩, some 12, none⟩ ⟨0⟩).outcome ≠
      Outcome.fatalAbort 2 := by
  decide

/-- C2 (amended): inside the Update Packaging Workflow, executor failures
are fatal — a non-zero exit of the update-package build in make_updates
or of signtool in sign_updates aborts with exit code 2 before any later
step of that stage runs, and a failed update.xml generation in
make_update_xml aborts fatally — but a non-success transfer result in
upload_updates is handled as a recoverable condition: the stage records
return code 2, completes without aborting, and the run continues. -/
theorem update_workflow_failure_policy :
    (∀ (e : MakeUpdatesEnv) (st : RunState), e.is_nightly = true →
      e.build_retval ≠ 0 → make_updates e st = ⟨st, Outcome.fatalAbort 2, 1, 0⟩) ∧
    (∀ (e : MakeUpdatesEnv) (st : RunState) (ss : List (List Char)),
      e.signing_servers = some ss → e.sign_retval ≠ 0 →
      sign_updates e st = ⟨st, Outcome.fatalAbort 2, 1, 0⟩) ∧
    (∀ (e : MakeUpdateXmlEnv) (st : RunState) (u : UpdateCfg),
      e.is_nightly = true → e.update = some u → e.create_xml_ok = false →
      make_update_xml e st = ⟨st, Outcome.fatalAbort (-1), 0, 0⟩) ∧
    (∀ (e : UploadUpdatesEnv) (st : RunState) (u : UpdateCfg) (c : Int),
      e.is_nightly = true → e.update = some u → e.rsync1 = some c →
      (upload_updates e st).outcome = Outcome.completed ∧
      (upload_updates e st).st.return_code = 2) := by
  refine ⟨?_, ?_, ?_, ?_⟩
  · intro e st hn hb
    simp [make_updates, hn, hb]
  · intro e st ss hss hs
    simp [sign_updates, hss, hs]
  · intro e st u hn hu hc
    simp [make_update_xml, hn, hu, hc]
  · intro e st u c hn hu hr
    rcases hap : u.autopublish with _ | _ <;>
      rcases hr2 : e.rsync2 with _ | c2 <;>
        simp [upload_updates, hn, hu, hr, hap, hr2]

theorem update_workflow_failure_policy_witness :
    make_updates ⟨true, 2, none, 0⟩ ⟨0⟩ = ⟨⟨0⟩, Outcome.fatalAbort 2, 1, 0⟩ ∧
    sign_updates ⟨true, 0, some [[]], 1⟩ ⟨0⟩ = ⟨⟨0⟩, Outcome.fatalAbort 2, 1, 0⟩ ∧
    make_update_xml ⟨true, some ⟨false⟩, false⟩ ⟨0⟩ = ⟨⟨0⟩, Outcome.fatalAbort (-1), 0, 0⟩ ∧
    ((upload_updates ⟨true, some ⟨false⟩, some 23, none⟩ ⟨0⟩).outcome = Outcome.completed ∧
     (upload_updates ⟨true, some ⟨false⟩, some 23, none⟩ ⟨0⟩).st.return_code = 2) :=
  ⟨update_workflow_failure_policy.1 ⟨true, 2, none, 0⟩ ⟨0⟩ rfl (by decide),
   update_workflow_failure_policy.2.1 ⟨true, 0, some [[]], 1⟩ ⟨0⟩ [[]] rfl (by decide),
   update_workflow_failure_policy.2.2.1 ⟨true, some ⟨false⟩, false⟩ ⟨0⟩ ⟨false⟩ rfl rfl rfl,
   update_workflow_failure_policy.2.2.2 ⟨true, some ⟨false⟩, some 23, none⟩ ⟨0⟩ ⟨false⟩ 23
     rfl rfl rfl⟩

/-! ## Artifact staging: `prep_upload` (scripts/b2g_build.py, lines 457-517)

After the optional zip bundle, the stage builds the individual-upload
list: it starts with the generated
`out/target/product/<target>/system/build.prop` (appended before any
pattern expansion) and then extends it with every glob match of every
`upload_files` pattern (glob results are collaborator input, one match
list per pattern).  Each file in the list is then staged: a file ending
in ".img" is compressed with bzip2 and staged under the ".bz2"-suffixed
name when the build is nightly, and skipped (`continue`) when it is not;
every other file is staged as-is. -/

def imgExt : String := ".img"

def strEndsWith (s suffixStr : String) : Bool :=
  suffixStr.data.isSuffixOf s.data

def bz2Ext : String := ".bz2"

def buildPropRel : String := "/system/build.prop"

def output_dir (workDir target : String) : String :=
  workDir ++ "/out/target/product/" ++ target

def upload_file_list (outDir : String) (globMatches : List (List String)) : List String :=
  (outDir ++ buildPropRel) :: globMatches.flatten

def stage_file (isNightly : Bool) (f : String) : Option String :=
  if strEndsWith f imgExt then
    (if isNightly then some (f ++ bz2Ext) else none)
  else some f

def staged_files (isNightly : Bool) (files : List String) : List String :=
  files.filterMap (stage_file isNightly)

def prep_upload (isNightly : Bool) (workDir target : String)
    (globMatches : List (List String)) : List String :=
  staged_files isNightly (upload_file_list (output_dir workDir target) globMatches)

theorem staged_files_nightly (files : List String) :
    staged_files true files =
      files.map (fun g => if strEndsWith g imgExt then g ++ bz2Ext else g) := by
  induction files with
  | nil => rfl
  | cons f rest ih =>
    by_cases h : strEndsWith f imgExt
    · simp only [staged_files, List.filterMap_cons, List.map_cons] at *
      simp [stage_file, h, ih]
    · simp only [staged_files, List.filterMap_cons, List.map_cons] at *
      simp [stage_file, h, ih]

theorem staged_files_nonnightly (files : List String) :
    staged_files false files = files.filter (fun g => !strEndsWith g imgExt) := by
  induction files with
  | nil => rfl
  | cons f rest ih =>
    by_cases h : strEndsWith f imgExt
    · simp only [staged_files, List.filterMap_cons, List.filter_cons] at *
      simp [stage_file, h, ih]
    · simp only [staged_files, List.filterMap_cons, List.filter_cons] at *
      simp [stage_file, h, ih]

/-- C7: in the artifact staging stage, every individually uploaded file
whose name ends in ".img" is compressed and staged under the
".bz2"-suffixed name when the build is nightly and skipped entirely when
it is not, while files without that extension are staged as-is in both
modes: per file, and summarised over the whole staged list (nightly
staging maps .img files to their compressed names; non-nightly staging
keeps exactly the non-.img files, unchanged). -/
theorem prep_upload_img_policy (f : String) (files : List String) :
    (strEndsWith f imgExt = true →
      stage_file true f = some (f ++ bz2Ext) ∧ stage_file false f = none) ∧
    (strEndsWith f imgExt = false → ∀ b, stage_file b f = some f) ∧
    staged_files true files =
      files.map (fun g => if strEndsWith g imgExt then g ++ bz2Ext else g) ∧
    staged_files false files = files.filter (fun g => !strEndsWith g imgExt) := by
  refine ⟨?_, ?_, staged_files_nightly files, staged_files_nonnightly files⟩
  · intro h
    exact ⟨by simp [stage_file, h], by simp [stage_file, h]⟩
  · intro h b
    simp [stage_file, h]

def exampleImg : String := "system.img"

def exampleProp : String := "build.prop"

theorem prep_upload_img_policy_witness :
    (stage_file true exampleImg = some (exampleImg ++ bz2Ext) ∧
      stage_file false exampleImg = none) ∧
    stage_file false exampleProp = some exampleProp :=
  ⟨(prep_upload_img_policy exampleImg []).1 (by decide),
   (prep_upload_img_policy exampleProp []).2.1 (by decide) false⟩

/-- C9: on every run of the artifact staging stage the individual-upload
file list starts with the generated
out/target/product/<target>/system/build.prop — it is prepended
unconditionally before the pattern-matched files, so it is a member of
the list regardless of what any upload pattern matched. -/
theorem prep_upload_includes_build_prop (workDir target : String)
    (globMatches : List (List String)) :
    (upload_file_list (output_dir workDir target) globMatches).head? =
      some (output_dir workDir target ++ buildPropRel) ∧
    (output_dir workDir target ++ buildPropRel) ∈
      upload_file_list (output_dir workDir target) globMatches ∧
    upload_file_list (output_dir workDir target) globMatches =
      (output_dir workDir target ++ buildPropRel) :: globMatches.flatten := by
  refine ⟨rfl, ?_, rfl⟩
  exact List.mem_cons_self _ _

/-! ## Publishing: `upload` and `query_buildid` (scripts/b2g_build.py, lines 172-180 and 519-559)

`query_buildid` reads the generated platform.ini and extracts the first
line matching `^BuildID=(\d+)$` (multiline), returning the digit group;
`None` when no line matches.  `upload` computes the destination path: in
try mode `basepath/user-rev/branch-target` where `user` comes from
`buildbot_config['sourcestamp']['changes'][0]['who']` with `KeyError`
(and only `KeyError`) caught and replaced by the literal "unknown" —
a missing dict key raises `KeyError`, an empty `changes` list raises
`IndexError`, and an absent (`None`) buildbot config raises `TypeError`,
neither of which is caught; in non-try mode
`basepath/branch-target/buildid` with the buildid read via
`query_buildid` (Python's `"%s" % None` renders as the string "None").
It then calls `rsync_upload_directory`, which returns `None` on success;
on a non-`None` result the stage logs an error and sets
`self.return_code = 2` without aborting. -/

def buildIDKey : String := "BuildID="

def strStartsWith (s pre : String) : Bool :=
  pre.data.isPrefixOf s.data

def buildid_of_line (line : String) : Option String :=
  if strStartsWith line buildIDKey then
    let rest := String.mk (line.data.drop 8)
    if rest.data.isEmpty then none
    else if rest.data.all Char.isDigit then some rest else none
  else none

def query_buildid (lines : List String) : Option String :=
  lines.findSome? buildid_of_line

def pyStrOpt : Option String → String
  | some s => s
  | none => "None"

def unknownUser : String := "unknown"

deriving instance DecidableEq for Except

structure Change where
  who : Option String
deriving DecidableEq

structure SourceStamp where
  changes : Option (List Change)
deriving DecidableEq

structure BuildbotConfig where
  sourcestamp : Option SourceStamp
deriving DecidableEq

def lookup_try_user (bc : Option BuildbotConfig) : Except PyExn String :=
  match bc with
  | none => Except.error PyExn.typeError
  | some b =>
    match b.sourcestamp with
    | none => Except.error PyExn.keyError
    | some ss =>
      match ss.changes with
      | none => Except.error PyExn.keyError
      | some chs =>
        match chs.head? with
        | none => Except.error PyExn.indexError
        | some ch =>
          match ch.who with
          | none => Except.error PyExn.keyError
          | some u => Except.ok u

def upload_user (bc : Option BuildbotConfig) : Except PyExn String :=
  match lookup_try_user bc with
  | Except.error PyExn.keyError => Except.ok unknownUser
  | Except.error PyExn.indexError => Except.error PyExn.indexError
  | Except.error PyExn.typeError => Except.error PyExn.typeError
  | Except.ok u => Except.ok u

structure UploadConfig where
  enable_try_uploads : Bool
  upload_remote_basepath : String
  target : String
  branch : String
  revision : Option String
  platform_ini : List String
deriving DecidableEq

def upload_dest (cfg : UploadConfig) (bc : Option BuildbotConfig) : Except PyExn String :=
  if cfg.enable_try_uploads then
    match upload_user bc with
    | Except.error e => Except.error e
    | Except.ok user =>
      Except.ok (cfg.upload_remote_basepath ++ "/" ++ user ++ "-" ++
        pyStrOpt cfg.revision ++ "/" ++ cfg.branch ++ "-" ++ cfg.target)
  else
    Except.ok (cfg.upload_remote_basepath ++ "/" ++ cfg.branch ++ "-" ++
      cfg.target ++ "/" ++ pyStrOpt (query_buildid cfg.platform_ini))

def upload (cfg : UploadConfig) (bc : Option BuildbotConfig)
    (rsyncResult : Option Int) (st : RunState) : RunState × Outcome :=
  match upload_dest cfg bc with
  | Except.error e => (st, Outcome.uncaught e)
  | Except.ok _ =>
    match rsyncResult with
    | some _ => ({ st with return_code := 2 }, Outcome.completed)
    | none => (st, Outcome.completed)

/-- Modelled from the spec: the Stage Pipeline Engine (`BaseScript.run`,
part of this repository's mozharness core but not under src/) executes
the selected stage actions sequentially with fail-fast semantics — a
stage that completes lets the pipeline continue with the next stage, and
any non-completed outcome aborts immediately so no later stage runs. -/
def run_pipeline (stages : List (RunState → RunState × Outcome)) (st : RunState) :
    RunState × Option Outcome :=
  match stages with
  | [] => (st, none)
  | s :: rest =>
    match s st with
    | (st', Outcome.completed) => run_pipeline rest st'
    | (st', o) => (st', some o)

def exCfg : UploadConfig :=
  ⟨false, "/pub/mobile", "device-x", "main", none, ["BuildID=20240101010101"]⟩

def examplePath : String := "/pub/mobile/main-device-x/20240101010101"

/-- C3: the upload stage computes exactly one of two mutually exclusive
destination paths selected by enable_try_uploads — in try mode
basepath/user-revision/branch-target (submitter identity and source
revision), in non-try mode basepath/branch-target/buildid, with the
build identifier obtained by reading the generated platform.ini metadata
(the first BuildID=digits line), not recomputed; on the literal example
branch=main, target=device-x, BuildID=20240101010101 the non-try path
ends in main-device-x/20240101010101. -/
theorem upload_dest_templates :
    (∀ (cfg : UploadConfig) (bc : Option BuildbotConfig) (u : String),
      cfg.enable_try_uploads = true → upload_user bc = Except.ok u →
      upload_dest cfg bc = Except.ok (cfg.upload_remote_basepath ++ "/" ++ u ++
        "-" ++ pyStrOpt cfg.revision ++ "/" ++ cfg.branch ++ "-" ++ cfg.target)) ∧
    (∀ (cfg : UploadConfig) (bc : Option BuildbotConfig),
      cfg.enable_try_uploads = false →
      upload_dest cfg bc = Except.ok (cfg.upload_remote_basepath ++ "/" ++
        cfg.branch ++ "-" ++ cfg.target ++ "/" ++
        pyStrOpt (query_buildid cfg.platform_ini))) ∧
    upload_dest exCfg none = Except.ok examplePath := by
  refine ⟨?_, ?_, ?_⟩
  · intro cfg bc u ht hu
    simp [upload_dest, ht, hu]
  · intro cfg bc ht
    simp [upload_dest, ht]
  · decide

def exTryCfg : UploadConfig :=
  ⟨true, "/pub/try", "device-x", "main", some "abcdef012345", []⟩

def exTryBc : Option BuildbotConfig :=
  some ⟨some ⟨some [⟨some ("jdoe")⟩]⟩⟩

theorem upload_dest_templates_witness :
    upload_dest exTryCfg exTryBc = Except.ok (exTryCfg.upload_remote_basepath ++
      "/" ++ "jdoe" ++ "-" ++ pyStrOpt exTryCfg.revision ++ "/" ++
      exTryCfg.branch ++ "-" ++ exTryCfg.target) ∧
    upload_dest exCfg none = Except.ok (exCfg.upload_remote_basepath ++ "/" ++
      exCfg.branch ++ "-" ++ exCfg.target ++ "/" ++
      pyStrOpt (query_buildid exCfg.platform_ini)) :=
  ⟨upload_dest_templates.1 exTryCfg exTryBc ("jdoe") rfl (by decide),
   upload_dest_templates.2.1 exCfg none rfl⟩

/-- C5: a non-success transfer result in the main upload stage is
recoverable: the stage records the failure by setting the run's return
code to 2 and completes without aborting, so under the fail-fast
pipeline engine any later selected stages still attempt to run. -/
theorem upload_transfer_failure_degrades (cfg : UploadConfig)
    (bc : Option BuildbotConfig) (st : RunState) (c : Int) (p : String)
    (rest : List (RunState → RunState × Outcome))
    (hdest : upload_dest cfg bc = Except.ok p) :
    upload cfg bc (some c) st = ({ st with return_code := 2 }, Outcome.completed) ∧
    run_pipeline (upload cfg bc (some c) :: rest) st =
      run_pipeline rest { st with return_code := 2 } := by
  have h1 : upload cfg bc (some c) st =
      ({ st with return_code := 2 }, Outcome.completed) := by
    simp [upload, hdest]
  exact ⟨h1, by simp [run_pipeline, h1]⟩

theorem upload_transfer_failure_degrades_witness :
    upload exCfg none (some 23) ⟨0⟩ = (⟨2⟩, Outcome.completed) ∧
    run_pipeline (upload exCfg none (some 23) :: []) ⟨0⟩ = run_pipeline [] ⟨2⟩ :=
  upload_transfer_failure_degrades exCfg none ⟨0⟩ 23 examplePath [] (by decide)

/-- C10: in try-upload mode, when the submitter lookup from the
scheduler-supplied properties raises KeyError, the upload stage does not
fail: it substitutes the literal string "unknown" as the submitter
component of the destination path and proceeds with the transfer,
completing whether or not the transfer itself succeeds. -/
theorem upload_keyerror_unknown_user (cfg : UploadConfig)
    (bc : Option BuildbotConfig) (r : Option Int) (st : RunState)
    (htry : cfg.enable_try_uploads = true)
    (hke : lookup_try_user bc = Except.error PyExn.keyError) :
    upload_dest cfg bc = Except.ok (cfg.upload_remote_basepath ++ "/" ++
      unknownUser ++ "-" ++ pyStrOpt cfg.revision ++ "/" ++ cfg.branch ++
      "-" ++ cfg.target) ∧
    (upload cfg bc r st).2 = Outcome.completed := by
  have hu : upload_user bc = Except.ok unknownUser := by
    simp [upload_user, hke]
  have hd : upload_dest cfg bc = Except.ok (cfg.upload_remote_basepath ++ "/" ++
      unknownUser ++ "-" ++ pyStrOpt cfg.revision ++ "/" ++ cfg.branch ++
      "-" ++ cfg.target) := by
    simp [upload_dest, htry, hu]
  refine ⟨hd, ?_⟩
  rcases r with _ | c <;> simp [upload, hd]

theorem upload_keyerror_unknown_user_witness :
    upload_dest exTryCfg (some ⟨none⟩) = Except.ok
      (exTryCfg.upload_remote_basepath ++ "/" ++ unknownUser ++ "-" ++
       pyStrOpt exTryCfg.revision ++ "/" ++ exTryCfg.branch ++ "-" ++
       exTryCfg.target) ∧
    (upload exTryCfg (some ⟨none⟩) (some 3) ⟨0⟩).2 = Outcome.completed :=
  upload_keyerror_unknown_user exTryCfg (some ⟨none⟩) (some 3) ⟨0⟩ rfl (by decide)

/-! ## Stage catalogue and selection (scripts/b2g_build.py, lines 70-95)

`B2GBuild.__init__` passes the full ordered action catalogue
(`all_actions`) and the default-enabled subset (`default_actions`) to
`BaseScript`.  The engine that turns a run's request (all actions, the
defaults, or an explicit inclusion/exclusion list) into the list of
stages to execute lives in the mozharness core outside src/, so it is
modelled from the spec below. -/

def b2g_all_actions : List String :=
  ["clobber", "checkout-gecko", "download-gonk", "unpack-gonk",
   "checkout-gaia", "checkout-gaia-l10n", "build", "build-symbols",
   "make-updates", "prep-upload", "upload", "make-update-xml",
   "upload-updates"]

def b2g_default_actions : List String :=
  ["checkout-gecko", "download-gonk", "unpack-gonk", "build"]

inductive ActionSelection
  | allActions
  | defaults
  | explicitList (chosen : List String)
deriving DecidableEq

/-- Modelled from the spec: the stage-selection logic of the Stage
Pipeline Engine (`BaseScript`/`BaseConfig`, part of this repository but
not under src/).  Given the full ordered stage catalogue and a selection
request — "all", the predefined default subset, or an explicit
inclusion/exclusion list reduced to the chosen set — it yields the
selected stages strictly in catalogue order. -/
def select_actions (catalogue defaults : List String) : ActionSelection → List String
  | ActionSelection.allActions => catalogue
  | ActionSelection.defaults => catalogue.filter (fun a => decide (a ∈ defaults))
  | ActionSelection.explicitList chosen => catalogue.filter (fun a => decide (a ∈ chosen))

/-- C8: for every stage catalogue and every selected subset — empty,
explicit, the default subset, or all — the execution order of the
selected stages is exactly the catalogue order restricted to the
selection: the selection is always a subsequence of the fixed ordered
catalogue, never reordered.  Instantiated on the b2g catalogue, the
default selection comes out exactly as the declared default actions in
catalogue order, "all" yields the full catalogue, and the empty explicit
selection yields no stages. -/
theorem stage_selection_order (catalogue defaults : List String)
    (sel : ActionSelection) :
    (select_actions catalogue defaults sel).Sublist catalogue ∧
    select_actions b2g_all_actions b2g_default_actions
      ActionSelection.defaults = b2g_default_actions ∧
    select_actions b2g_all_actions b2g_default_actions
      ActionSelection.allActions = b2g_all_actions ∧
    select_actions b2g_all_actions b2g_default_actions
      (ActionSelection.explicitList []) = [] := by
  refine ⟨?_, by decide, rfl, by decide⟩
  cases sel with
  | allActions => exact List.Sublist.refl _
  | defaults => exact List.filter_sublist _
  | explicitList chosen => exact List.filter_sublist _
